import Mathlib

set_option maxRecDepth 100000

/-!
Verification of the stock.sys backend's settings-encryption and
scheduled-job orchestration pipeline.  Definitions are shallow embeddings
of the JavaScript sources: `src/backend/database/db.js`,
`src/backend/services/stockService.js`, `src/backend/services/scheduler.js`,
`src/backend/services/telegramService.js`, and the settings, notification,
stock and prediction controllers.  Node's `crypto` module (as used with
the `'aes-256-cbc'` algorithm) is embedded as an executable AES-256-CBC
implementation over byte lists, including `createCipheriv`'s key/IV length
validation.
-/

namespace StockSys

/-! ## Bytes and AES-256 (model of Node `crypto` `'aes-256-cbc'`) -/

/-- A byte, kept as a `Nat` in `[0, 256)`. -/
abbrev Byte := Nat

/-- The AES forward S-box (FIPS-197). -/
def sboxTable : List Byte := [
  99, 124, 119, 123, 242, 107, 111, 197, 48, 1, 103, 43, 254, 215, 171, 118,
  202, 130, 201, 125, 250, 89, 71, 240, 173, 212, 162, 175, 156, 164, 114, 192,
  183, 253, 147, 38, 54, 63, 247, 204, 52, 165, 229, 241, 113, 216, 49, 21,
  4, 199, 35, 195, 24, 150, 5, 154, 7, 18, 128, 226, 235, 39, 178, 117,
  9, 131, 44, 26, 27, 110, 90, 160, 82, 59, 214, 179, 41, 227, 47, 132,
  83, 209, 0, 237, 32, 252, 177, 91, 106, 203, 190, 57, 74, 76, 88, 207,
  208, 239, 170, 251, 67, 77, 51, 133, 69, 249, 2, 127, 80, 60, 159, 168,
  81, 163, 64, 143, 146, 157, 56, 245, 188, 182, 218, 33, 16, 255, 243, 210,
  205, 12, 19, 236, 95, 151, 68, 23, 196, 167, 126, 61, 100, 93, 25, 115,
  96, 129, 79, 220, 34, 42, 144, 136, 70, 238, 184, 20, 222, 94, 11, 219,
  224, 50, 58, 10, 73, 6, 36, 92, 194, 211, 172, 98, 145, 149, 228, 121,
  231, 200, 55, 109, 141, 213, 78, 169, 108, 86, 244, 234, 101, 122, 174, 8,
  186, 120, 37, 46, 28, 166, 180, 198, 232, 221, 116, 31, 75, 189, 139, 138,
  112, 62, 181, 102, 72, 3, 246, 14, 97, 53, 87, 185, 134, 193, 29, 158,
  225, 248, 152, 17, 105, 217, 142, 148, 155, 30, 135, 233, 206, 85, 40, 223,
  140, 161, 137, 13, 191, 230, 66, 104, 65, 153, 45, 15, 176, 84, 187, 22]

/-- The AES inverse S-box (FIPS-197). -/
def invSboxTable : List Byte := [
  82, 9, 106, 213, 48, 54, 165, 56, 191, 64, 163, 158, 129, 243, 215, 251,
  124, 227, 57, 130, 155, 47, 255, 135, 52, 142, 67, 68, 196, 222, 233, 203,
  84, 123, 148, 50, 166, 194, 35, 61, 238, 76, 149, 11, 66, 250, 195, 78,
  8, 46, 161, 102, 40, 217, 36, 178, 118, 91, 162, 73, 109, 139, 209, 37,
  114, 248, 246, 100, 134, 104, 152, 22, 212, 164, 92, 204, 93, 101, 182, 146,
  108, 112, 72, 80, 253, 237, 185, 218, 94, 21, 70, 87, 167, 141, 157, 132,
  144, 216, 171, 0, 140, 188, 211, 10, 247, 228, 88, 5, 184, 179, 69, 6,
  208, 44, 30, 143, 202, 63, 15, 2, 193, 175, 189, 3, 1, 19, 138, 107,
  58, 145, 17, 65, 79, 103, 220, 234, 151, 242, 207, 206, 240, 180, 230, 115,
  150, 172, 116, 34, 231, 173, 53, 133, 226, 249, 55, 232, 28, 117, 223, 110,
  71, 241, 26, 113, 29, 41, 197, 137, 111, 183, 98, 14, 170, 24, 190, 27,
  252, 86, 62, 75, 198, 210, 121, 32, 154, 219, 192, 254, 120, 205, 90, 244,
  31, 221, 168, 51, 136, 7, 199, 49, 177, 18, 16, 89, 39, 128, 236, 95,
  96, 81, 127, 169, 25, 181, 74, 13, 45, 229, 122, 159, 147, 201, 156, 239,
  160, 224, 59, 77, 174, 42, 245, 176, 200, 235, 187, 60, 131, 83, 153, 97,
  23, 43, 4, 126, 186, 119, 214, 38, 225, 105, 20, 99, 85, 33, 12, 125]

/-- S-box lookup. -/
def sb (b : Byte) : Byte := sboxTable.getD b 0

/-- Inverse S-box lookup. -/
def isb (b : Byte) : Byte := invSboxTable.getD b 0

/-- AES round constants. -/
def rcon : List Byte := [1, 2, 4, 8, 16, 32, 64, 128, 27, 54]

/-- Multiplication by x in GF(2^8) modulo the AES polynomial. -/
def xtime (b : Byte) : Byte := if b < 128 then 2 * b else (2 * b) ^^^ 0x11B

/-- GF(2^8) multiplication (Russian-peasant, 8 rounds). -/
def gmul (a b : Byte) : Byte :=
  (((List.range 8).foldl
      (fun acc _ =>
        let p := if acc.2.2 % 2 == 1 then acc.1 ^^^ acc.2.1 else acc.1
        (p, xtime acc.2.1, acc.2.2 / 2))
      ((0 : Byte), a, b))).1

/-- Bytewise xor of two equal-length byte lists. -/
def xorw (a b : List Byte) : List Byte := List.zipWith (fun x y => x ^^^ y) a b

/-- `SubWord` of the AES key schedule. -/
def subWord (w : List Byte) : List Byte := w.map sb

/-- `RotWord` of the AES key schedule. -/
def rotWord (w : List Byte) : List Byte :=
  match w with
  | [a, b, c, d] => [b, c, d, a]
  | l => l

/-- AES-256 key expansion: 32 key bytes to 60 four-byte words. -/
def keyExpansion256 (key : List Byte) : List (List Byte) :=
  (List.range 52).foldl
    (fun ws j =>
      let i := j + 8
      let t := ws.getD (i - 1) []
      let t :=
        if i % 8 == 0 then
          xorw (subWord (rotWord t)) [rcon.getD (i / 8 - 1) 0, 0, 0, 0]
        else if i % 8 == 4 then subWord t
        else t
      ws ++ [xorw (ws.getD (i - 8) []) t])
    ((List.range 8).map (fun i => (key.drop (4 * i)).take 4))

/-- The 16-byte round key for round `r` (state is column-major). -/
def roundKey (ws : List (List Byte)) (r : Nat) : List Byte :=
  ((ws.drop (4 * r)).take 4).flatten

/-- `AddRoundKey`. -/
def addRoundKey (st rk : List Byte) : List Byte := xorw st rk

/-- `SubBytes`. -/
def subBytes (st : List Byte) : List Byte := st.map sb

/-- `InvSubBytes`. -/
def invSubBytes (st : List Byte) : List Byte := st.map isb

/-- `ShiftRows` on a column-major 16-byte state. -/
def shiftRows (s : List Byte) : List Byte :=
  [s.getD 0 0, s.getD 5 0, s.getD 10 0, s.getD 15 0,
   s.getD 4 0, s.getD 9 0, s.getD 14 0, s.getD 3 0,
   s.getD 8 0, s.getD 13 0, s.getD 2 0, s.getD 7 0,
   s.getD 12 0, s.getD 1 0, s.getD 6 0, s.getD 11 0]

/-- `InvShiftRows` on a column-major 16-byte state. -/
def invShiftRows (s : List Byte) : List Byte :=
  [s.getD 0 0, s.getD 13 0, s.getD 10 0, s.getD 7 0,
   s.getD 4 0, s.getD 1 0, s.getD 14 0, s.getD 11 0,
   s.getD 8 0, s.getD 5 0, s.getD 2 0, s.getD 15 0,
   s.getD 12 0, s.getD 9 0, s.getD 6 0, s.getD 3 0]

/-- `MixColumns` on one 4-byte column. -/
def mixCol (c : List Byte) : List Byte :=
  match c with
  | [a, b, cc, d] =>
    [gmul 2 a ^^^ gmul 3 b ^^^ cc ^^^ d,
     a ^^^ gmul 2 b ^^^ gmul 3 cc ^^^ d,
     a ^^^ b ^^^ gmul 2 cc ^^^ gmul 3 d,
     gmul 3 a ^^^ b ^^^ cc ^^^ gmul 2 d]
  | l => l

/-- `InvMixColumns` on one 4-byte column. -/
def invMixCol (c : List Byte) : List Byte :=
  match c with
  | [a, b, cc, d] =>
    [gmul 14 a ^^^ gmul 11 b ^^^ gmul 13 cc ^^^ gmul 9 d,
     gmul 9 a ^^^ gmul 14 b ^^^ gmul 11 cc ^^^ gmul 13 d,
     gmul 13 a ^^^ gmul 9 b ^^^ gmul 14 cc ^^^ gmul 11 d,
     gmul 11 a ^^^ gmul 13 b ^^^ gmul 9 cc ^^^ gmul 14 d]
  | l => l

/-- Split a byte list into 4-byte chunks. -/
def chunk4 : List Byte -> List (List Byte)
  | a :: b :: c :: d :: rest => [a, b, c, d] :: chunk4 rest
  | _ => []

/-- `MixColumns` on the full state. -/
def mixColumns (s : List Byte) : List Byte := (chunk4 s).flatMap mixCol

/-- `InvMixColumns` on the full state. -/
def invMixColumns (s : List Byte) : List Byte := (chunk4 s).flatMap invMixCol

/-- AES-256 block encryption (14 rounds). -/
def encBlock (ws : List (List Byte)) (block : List Byte) : List Byte :=
  let st0 := addRoundKey block (roundKey ws 0)
  let stMid :=
    (List.range 13).foldl
      (fun st j => addRoundKey (mixColumns (shiftRows (subBytes st))) (roundKey ws (j + 1)))
      st0
  addRoundKey (shiftRows (subBytes stMid)) (roundKey ws 14)

/-- AES-256 block decryption (14 rounds). -/
def decBlock (ws : List (List Byte)) (block : List Byte) : List Byte :=
  let st0 := addRoundKey block (roundKey ws 14)
  let stMid :=
    (List.range 13).foldl
      (fun st j => invMixColumns (addRoundKey (invSubBytes (invShiftRows st)) (roundKey ws (13 - j))))
      st0
  addRoundKey (invSubBytes (invShiftRows stMid)) (roundKey ws 0)

/-- PKCS#7 padding to a 16-byte multiple. -/
def pkcs7Pad (bs : List Byte) : List Byte :=
  let n := 16 - bs.length % 16
  bs ++ List.replicate n n

/-- PKCS#7 unpadding; `none` on invalid padding (OpenSSL "bad decrypt"). -/
def pkcs7Unpad (bs : List Byte) : Option (List Byte) :=
  match bs.getLast? with
  | none => none
  | some n =>
    if 1 <= n && n <= 16 && n <= bs.length
        && ((bs.drop (bs.length - n)).all (fun b => b == n)) then
      some (bs.take (bs.length - n))
    else none

/-- Split a byte list into 16-byte blocks (caller checks divisibility). -/
def chunk16 (bs : List Byte) : List (List Byte) :=
  match bs with
  | b0 :: b1 :: b2 :: b3 :: b4 :: b5 :: b6 :: b7 ::
    b8 :: b9 :: b10 :: b11 :: b12 :: b13 :: b14 :: b15 :: rest =>
    [b0, b1, b2, b3, b4, b5, b6, b7, b8, b9, b10, b11, b12, b13, b14, b15] :: chunk16 rest
  | _ => []

/-- CBC encryption of already-padded blocks. -/
def cbcEncBlocks (ws : List (List Byte)) (prev : List Byte) : List (List Byte) -> List Byte
  | [] => []
  | blk :: rest =>
    let c := encBlock ws (xorw blk prev)
    c ++ cbcEncBlocks ws c rest

/-- AES-256-CBC encryption with PKCS#7 padding. -/
def cbcEnc (key iv pt : List Byte) : List Byte :=
  cbcEncBlocks (keyExpansion256 key) iv (chunk16 (pkcs7Pad pt))

/-- CBC decryption of ciphertext blocks. -/
def cbcDecBlocks (ws : List (List Byte)) (prev : List Byte) : List (List Byte) -> List Byte
  | [] => []
  | blk :: rest => xorw (decBlock ws blk) prev ++ cbcDecBlocks ws blk rest

/-- AES-256-CBC decryption body (before padding validation). -/
def cbcDecRaw (key iv ct : List Byte) : List Byte :=
  cbcDecBlocks (keyExpansion256 key) iv (chunk16 ct)

/-! ## Hex encoding, string bytes, and the encrypt/decrypt wrappers -/

/-- Value of a hex digit character, if any. -/
def hexDigit? (c : Char) : Option Nat :=
  if '0' <= c && c <= '9' then some (c.toNat - '0'.toNat)
  else if 'a' <= c && c <= 'f' then some (c.toNat - 'a'.toNat + 10)
  else if 'A' <= c && c <= 'F' then some (c.toNat - 'A'.toNat + 10)
  else none

/-- Hex character for a value below 16 (lowercase, as Node emits). -/
def hexChar (n : Nat) : Char :=
  if n < 10 then Char.ofNat ('0'.toNat + n) else Char.ofNat ('a'.toNat + n - 10)

/-- Decode a hex string to bytes; decoding stops at the first invalid or
unpaired digit, as Node's `Buffer.from(s, 'hex')` does. -/
def hexDecode : List Char -> List Byte
  | a :: b :: rest =>
    match hexDigit? a, hexDigit? b with
    | some x, some y => (16 * x + y) :: hexDecode rest
    | _, _ => []
  | _ => []

/-- Encode bytes as a lowercase hex string. -/
def hexEncode (bs : List Byte) : String :=
  String.mk (bs.flatMap (fun b => [hexChar (b / 16 % 16), hexChar (b % 16)]))

/-- UTF-8 bytes of a string; the strings this system encrypts and the
configured literals are ASCII, for which this agrees with `Buffer.from`. -/
def strBytes (s : String) : List Byte := s.data.map Char.toNat

/-- The key and IV handed to `crypto.createCipheriv` /
`crypto.createDecipheriv`, as resolved from the environment. -/
structure CryptoConfig where
  key : List Byte
  iv : List Byte
deriving DecidableEq

/-- The configuration when `ENCRYPTION_KEY` / `ENCRYPTION_IV` are unset:
the source's fallback literals
`'your-secret-encryption-key-32-chars'` and `'your-iv-16-chars'`. -/
def fallbackConfig : CryptoConfig :=
  { key := strBytes "your-secret-encryption-key-32-chars"
    iv := strBytes "your-iv-16-chars" }

/-- The exceptions Node's crypto layer can raise in this pipeline. -/
inductive CryptoErr
  | invalidKeyLength
  | invalidIvLength
  | wrongFinalBlockLength
  | badDecrypt
deriving DecidableEq

/-- `encrypt` of `settingsController.js`: `createCipheriv('aes-256-cbc', key, iv)`
(which validates a 32-byte key and 16-byte IV), then
`cipher.update(text, 'utf8', 'hex') + cipher.final('hex')`.  An `Except.error`
models the exception escaping `encrypt` (the source has no try/catch here). -/
def encrypt (cfg : CryptoConfig) (ptBytes : List Byte) : Except CryptoErr String :=
  if cfg.key.length != 32 then .error .invalidKeyLength
  else if cfg.iv.length != 16 then .error .invalidIvLength
  else .ok (hexEncode (cbcEnc cfg.key cfg.iv ptBytes))

/-- The body of `decrypt` before its try/catch: `createDecipheriv`
validation, hex decode, CBC decrypt, padding check. -/
def decryptRaw (cfg : CryptoConfig) (encryptedText : String) : Except CryptoErr (List Byte) :=
  if cfg.key.length != 32 then .error .invalidKeyLength
  else if cfg.iv.length != 16 then .error .invalidIvLength
  else
    let ct := hexDecode encryptedText.data
    if ct.length == 0 || ct.length % 16 != 0 then .error .wrongFinalBlockLength
    else
      match pkcs7Unpad (cbcDecRaw cfg.key cfg.iv ct) with
      | none => .error .badDecrypt
      | some pt => .ok pt

/-- `decrypt` as the services and controllers use it: the whole body is
wrapped in try/catch and any failure becomes `null` (`none`). -/
def decrypt (cfg : CryptoConfig) (encryptedText : String) : Option (List Byte) :=
  match decryptRaw cfg encryptedText with
  | .ok pt => some pt
  | .error _ => none

/-- A concrete valid configuration used in witnesses: ASCII
`0123456789abcdef0123456789abcdef` key and `0123456789abcdef` IV. -/
def testConfig : CryptoConfig :=
  { key := strBytes "0123456789abcdef0123456789abcdef"
    iv := strBytes "0123456789abcdef" }

instance {e a : Type} [DecidableEq e] [DecidableEq a] : DecidableEq (Except e a)
  | .ok x, .ok y =>
    if h : x = y then .isTrue (congrArg Except.ok h)
    else .isFalse (fun he => h (Except.ok.inj he))
  | .error x, .error y =>
    if h : x = y then .isTrue (congrArg Except.error h)
    else .isFalse (fun he => h (Except.error.inj he))
  | .ok _, .error _ => .isFalse (fun he => Except.noConfusion he)
  | .error _, .ok _ => .isFalse (fun he => Except.noConfusion he)

/-! ## Database model (`db.js` schema and helpers)

The SQLite store is modelled as in-memory lists of rows.  Row lists are
kept in insertion order; `created_at` values are drawn from a monotone
clock, so list order coincides with `ORDER BY created_at`. -/

/-- A `settings` row (`key PK, value, updated_at`). -/
structure SettingRow where
  key : String
  value : Option String
  updatedAt : Nat
deriving DecidableEq

/-- A `stocks` row. -/
structure StockRow where
  symbol : String
  name : String
  exchange : String
  sector : String
  industry : String
  updatedAt : Nat
deriving DecidableEq

/-- A `historical_prices` row (`UNIQUE(symbol, date)`). -/
structure PriceRow where
  symbol : String
  date : String
  openP : ℚ
  high : ℚ
  low : ℚ
  close : ℚ
  volume : Int
deriving DecidableEq

/-- A `predictions` row, fields named after the table's columns. -/
structure PredRow where
  id : Nat
  symbol : String
  date : String
  predictionType : String
  timeframe : String
  prediction : String
  confidence : String
  targetPrice : String
  createdAt : Nat
deriving DecidableEq

/-- A `notifications` row. -/
structure NotificationRow where
  id : Nat
  ntype : String
  symbol : Option String
  message : String
  isSent : Bool
  createdAt : Nat
  sentAt : Option Nat
deriving DecidableEq

/-- The whole persistent store plus the id counters and a clock. -/
structure DBState where
  settings : List SettingRow
  stocks : List StockRow
  prices : List PriceRow
  preds : List PredRow
  notifs : List NotificationRow
  nextNotifId : Nat
  nextPredId : Nat
  now : Nat
deriving DecidableEq

/-- JS truthiness of a nullable string: `null` and `''` are falsy. -/
def truthyStr : Option String -> Bool
  | none => false
  | some s => !s.isEmpty

/-- JS truthiness of a decrypted value (`null` or empty string falsy). -/
def truthyBytes : Option (List Byte) -> Bool
  | none => false
  | some [] => false
  | some (_ :: _) => true

/-- `SELECT value FROM settings WHERE key = ?` flattened to the returned
value: `none` for a missing row and for a NULL value alike. -/
def lookupSetting (rows : List SettingRow) (key : String) : Option String :=
  match rows.find? (fun r => r.key == key) with
  | none => none
  | some r => r.value

/-- `getSetting` of `db.js`: a read-only SELECT. -/
def getSetting (st : DBState) (key : String) : Option String :=
  lookupSetting st.settings key

/-- `updateSetting` of `db.js`: `INSERT OR REPLACE` keyed on `key`,
stamping `updated_at`. -/
def updateSetting (st : DBState) (key : String) (value : Option String) : DBState :=
  if (st.settings.find? (fun r => r.key == key)).isSome then
    { st with settings :=
        st.settings.map (fun r =>
          if r.key == key then { key := key, value := value, updatedAt := st.now } else r) }
  else
    { st with settings := st.settings ++ [{ key := key, value := value, updatedAt := st.now }] }

/-- `INSERT OR REPLACE INTO stocks` keyed on `symbol`. -/
def upsertStock (st : DBState) (row : StockRow) : DBState :=
  if (st.stocks.find? (fun r => r.symbol == row.symbol)).isSome then
    { st with stocks := st.stocks.map (fun r => if r.symbol == row.symbol then row else r) }
  else
    { st with stocks := st.stocks ++ [row] }

/-- `INSERT OR REPLACE INTO historical_prices` keyed on `(symbol, date)`. -/
def upsertPrice (st : DBState) (row : PriceRow) : DBState :=
  if (st.prices.find? (fun r => r.symbol == row.symbol && r.date == row.date)).isSome then
    { st with prices :=
        st.prices.map (fun r =>
          if r.symbol == row.symbol && r.date == row.date then row else r) }
  else
    { st with prices := st.prices ++ [row] }

/-- Find a notification by id. -/
def findNotif (st : DBState) (id : Nat) : Option NotificationRow :=
  st.notifs.find? (fun n => n.id == id)

/-- `UPDATE notifications SET ... WHERE id = ?`. -/
def updateNotif (st : DBState) (id : Nat) (f : NotificationRow -> NotificationRow) : DBState :=
  { st with notifs := st.notifs.map (fun n => if n.id == id then f n else n) }

/-! ## `telegramService.js` -/

/-- The Telegram transport: `bot.sendMessage(chatId, message, ...)`, where
the bot is identified by its (decrypted) token.  `Except.error` models a
rejected delivery. -/
abbrev Transport := List Byte -> String -> String -> Except String Unit

/-- `getBot`: return the cached bot instance, else read and decrypt
`telegram_token` and construct one (a bot is modelled by its token).
The second component is the module-global `bot` cache after the call. -/
def getBot (cfg : CryptoConfig) (cache : Option (List Byte)) (st : DBState) :
    Except String (List Byte) × Option (List Byte) :=
  match cache with
  | some b => (.ok b, some b)
  | none =>
    let encryptedToken := getSetting st "telegram_token"
    if !truthyStr encryptedToken then (.error "Telegram token is not set", none)
    else
      match decrypt cfg (encryptedToken.getD "") with
      | none => (.error "Failed to decrypt Telegram token", none)
      | some token =>
        if token.isEmpty then (.error "Failed to decrypt Telegram token", none)
        else (.ok token, some token)

/-- `sendMessage`: `getBot`, read `telegram_chat_id`, deliver through the
transport; every failure is rethrown to the caller.  Also returns the
bot cache after the call. -/
def sendMessage (cfg : CryptoConfig) (transport : Transport) (cache : Option (List Byte))
    (st : DBState) (message : String) : Except String Unit × Option (List Byte) :=
  match getBot cfg cache st with
  | (.error e, cache') => (.error e, cache')
  | (.ok bot, cache') =>
    let chatId := getSetting st "telegram_chat_id"
    if !truthyStr chatId then (.error "Telegram chat ID is not set", cache')
    else (transport bot (chatId.getD "") message, cache')

/-- `registerChat`: the source calls `getSetting('telegram_chat_id',
chatId.toString())` — `getSetting(key)` takes one parameter, so the extra
argument is ignored and only a SELECT runs — then resolves `true`. -/
def registerChat (st : DBState) (chatId : String) : Bool × DBState :=
  let _ := getSetting st "telegram_chat_id"
  let _ := chatId
  (true, st)

/-! ## `settingsController.js`: `getAllSettings` -/

/-- The keys redacted when listing settings. -/
def sensitiveKeys : List String := ["ai_api_key", "telegram_token", "stock_api_key"]

/-- One item of the `GET /settings` response. -/
inductive SettingOut
  | plain (key : String) (value : Option String) (updatedAt : Nat)
  | redacted (key : String) (isSet : Bool) (updatedAt : Nat)
deriving DecidableEq

/-- Per-row processing of `getAllSettings`: sensitive keys become
`{key, isSet, updated_at}`; other rows pass through unchanged. -/
def processSetting (r : SettingRow) : SettingOut :=
  if sensitiveKeys.contains r.key then .redacted r.key (truthyStr r.value) r.updatedAt
  else .plain r.key r.value r.updatedAt

/-- `getAllSettings`: `SELECT key, value, updated_at FROM settings`,
processed row by row. -/
def getAllSettings (st : DBState) : List SettingOut :=
  st.settings.map processSetting

/-! ## `stockService.js` -/

/-- The canonical stock-overview shape built by the provider adapters. -/
structure Overview where
  symbol : String
  name : String
  exchange : String
  sector : String
  industry : String
deriving DecidableEq

/-- One entry of a provider's daily price series, after numeric parsing. -/
structure PriceEntry where
  date : String
  openP : ℚ
  high : ℚ
  low : ℚ
  close : ℚ
  volume : Int
deriving DecidableEq

/-- The canonical `{stockInfo, historicalPrices}` shape. -/
structure StockData where
  stockInfo : Overview
  historicalPrices : List PriceEntry
deriving DecidableEq

/-- The `stocks` endpoint shape of Twelve Data (no sector/industry). -/
structure TdInfo where
  symbol : String
  name : String
  exchange : String
deriving DecidableEq

/-- The network/parsing boundary: responses of the provider HTTP calls,
keyed by symbol and API key exactly as the request URLs are.  `none`
covers both a rejected request and a response missing the expected field;
both make the adapter throw. -/
structure ApiOracle where
  avOverview : String -> List Byte -> Option Overview
  avSeries : String -> List Byte -> Option (List PriceEntry)
  tdInfo : String -> List Byte -> Option TdInfo
  tdSeries : String -> List Byte -> Option (List PriceEntry)
  yahoo : String -> StockData

/-- `fetchFromAlphaVantage`: company overview first, then the daily time
series, then normalization; any missing piece throws. -/
def fetchFromAlphaVantage (api : ApiOracle) (symbol : String) (apiKey : List Byte) :
    Except String StockData :=
  match api.avOverview symbol apiKey with
  | none => .error "Invalid response from Alpha Vantage API"
  | some overview =>
    match api.avSeries symbol apiKey with
    | none => .error "Invalid response from Alpha Vantage API"
    | some series =>
      .ok { stockInfo :=
              { symbol := overview.symbol, name := overview.name, exchange := overview.exchange
                sector := overview.sector, industry := overview.industry }
            historicalPrices := series }

/-- `fetchFromTwelveData`: stock info first, then the time series;
sector/industry are filled with empty strings. -/
def fetchFromTwelveData (api : ApiOracle) (symbol : String) (apiKey : List Byte) :
    Except String StockData :=
  match api.tdInfo symbol apiKey with
  | none => .error "Invalid response from Twelve Data API"
  | some info =>
    match api.tdSeries symbol apiKey with
    | none => .error "Invalid response from Twelve Data API"
    | some series =>
      .ok { stockInfo :=
              { symbol := info.symbol, name := info.name, exchange := info.exchange
                sector := "", industry := "" }
            historicalPrices := series }

/-- The oracle for write failures of `db.runAsync` inside one
`saveStockData` call: `wfail k` says the k-th write of the call fails
(write 0 is the stock upsert, write k ≥ 1 the k-th price row). -/
abbrev WriteOracle := Nat -> Bool

/-- The `historical_prices` row written for one series entry. -/
def priceRowOf (symbol : String) (p : PriceEntry) : PriceRow :=
  { symbol := symbol, date := p.date, openP := p.openP, high := p.high
    low := p.low, close := p.close, volume := p.volume }

/-- The `stocks` row written for an overview (stamping `updated_at`). -/
def stockRowOf (st : DBState) (o : Overview) : StockRow :=
  { symbol := o.symbol, name := o.name, exchange := o.exchange
    sector := o.sector, industry := o.industry, updatedAt := st.now }

/-- The price-row loop of `saveStockData`, starting at write index `k`. -/
def savePricesLoop (wfail : WriteOracle) (symbol : String) :
    Nat -> List PriceEntry -> DBState -> Except String Unit × DBState
  | _, [], st => (.ok (), st)
  | k, p :: rest, st =>
    if wfail k then (.error "SQLITE_ERROR: historical_prices write failed", st)
    else savePricesLoop wfail symbol (k + 1) rest (upsertPrice st (priceRowOf symbol p))

/-- `saveStockData`: upsert of the stock row, then one upsert per price
row, sequentially and with no transaction; a failing write throws and
leaves the earlier writes of the call in place. -/
def saveStockData (wfail : WriteOracle) (st : DBState) (sd : StockData) :
    Except String Unit × DBState :=
  if wfail 0 then (.error "SQLITE_ERROR: stocks write failed", st)
  else
    savePricesLoop wfail sd.stockInfo.symbol 1 sd.historicalPrices
      (upsertStock st (stockRowOf st sd.stockInfo))

/-- JS `x || 'alphavantage'`: `null` and `''` fall back to the default. -/
def providerOrDefault (v : Option String) : String :=
  match v with
  | none => "alphavantage"
  | some s => if s.isEmpty then "alphavantage" else s

/-- The fetch phase of `fetchStockData` (everything before
`saveStockData`): provider resolution, API-key read and decrypt, and the
provider dispatch.  No write happens here. -/
def resolveAndFetch (cfg : CryptoConfig) (api : ApiOracle) (st : DBState) (symbol : String) :
    Except String StockData :=
  let provider := providerOrDefault (getSetting st "stock_api_provider")
  let encryptedApiKey := getSetting st "stock_api_key"
  if !truthyStr encryptedApiKey then .error "Stock API key is not set"
  else
    match decrypt cfg (encryptedApiKey.getD "") with
    | none => .error "Failed to decrypt API key"
    | some apiKey =>
      if apiKey.isEmpty then .error "Failed to decrypt API key"
      else if provider == "alphavantage" then fetchFromAlphaVantage api symbol apiKey
      else if provider == "twelvedata" then fetchFromTwelveData api symbol apiKey
      else if provider == "yahoofinance" then .ok (api.yahoo symbol)
      else .error ("Unsupported API provider: " ++ provider)

/-- `fetchStockData`: fetch, then `saveStockData`; every error is
rethrown to the caller, and the state reflects whatever writes happened
before the error. -/
def fetchStockData (cfg : CryptoConfig) (api : ApiOracle) (wfail : WriteOracle)
    (st : DBState) (symbol : String) : Except String StockData × DBState :=
  match resolveAndFetch cfg api st symbol with
  | .error e => (.error e, st)
  | .ok stockData =>
    match saveStockData wfail st stockData with
    | (.ok _, st') => (.ok stockData, st')
    | (.error e, st') => (.error e, st')

/-! ## `stockController.js`: `refreshStockData` -/

/-- The response of `POST /stocks/refresh`.  A rejected `Promise.all`
reaches `next(err)` and becomes a single uniform 500 response. -/
inductive RefreshResp
  | badRequest (error : String)
  | ok (results : List StockData)
  | serverError (error : String)
deriving DecidableEq

/-- Run `fetchStockData` for each symbol, collecting each symbol's
outcome and threading the store (the per-symbol writes touch disjoint
rows, so the concurrent `Promise.all` branches are modelled
sequentially). -/
def refreshAll (cfg : CryptoConfig) (api : ApiOracle) (wfail : WriteOracle) :
    List String -> DBState -> List (Except String StockData) × DBState
  | [], st => ([], st)
  | s :: rest, st =>
    let (r, st') := fetchStockData cfg api wfail st s
    let (rs, st'') := refreshAll cfg api wfail rest st'
    (r :: rs, st'')

/-- First error among the outcomes, if any (`Promise.all`'s rejection). -/
def firstError (rs : List (Except String StockData)) : Option String :=
  rs.findSome? (fun r => match r with | .error e => some e | .ok _ => none)

/-- Successful results, in order. -/
def okResults (rs : List (Except String StockData)) : List StockData :=
  rs.filterMap (fun r => match r with | .ok d => some d | .error _ => none)

/-- `refreshStockData`: validate the body, then
`Promise.all(symbols.map(fetchStockData))`.  All branches run to
completion (a rejection does not cancel the others' writes), but if any
branch rejects the route answers with the single rejection via
`next(err)`, not with per-symbol outcomes. -/
def refreshRoute (cfg : CryptoConfig) (api : ApiOracle) (wfail : WriteOracle)
    (syms : List String) (st : DBState) : RefreshResp × DBState :=
  if syms.isEmpty then (.badRequest "Please provide an array of stock symbols", st)
  else
    match firstError (refreshAll cfg api wfail syms st).1 with
    | some e => (.serverError e, (refreshAll cfg api wfail syms st).2)
    | none => (.ok (okResults (refreshAll cfg api wfail syms st).1),
               (refreshAll cfg api wfail syms st).2)

/-- `refreshStockData` (the route handler): body validation, then the
batch via `refreshRoute`. -/
def refreshStockData (cfg : CryptoConfig) (api : ApiOracle) (wfail : WriteOracle)
    (st : DBState) (symbols : Option (List String)) : RefreshResp × DBState :=
  match symbols with
  | none => (.badRequest "Please provide an array of stock symbols", st)
  | some syms => refreshRoute cfg api wfail syms st

/-! ## `scheduler.js`: `updateStockData` -/

/-- The per-symbol loop of the scheduled refresh: each `fetchStockData`
is wrapped in try/catch, so a failure is logged and the loop continues. -/
def updateStocksLoop (cfg : CryptoConfig) (api : ApiOracle) (wfail : WriteOracle) :
    List String -> DBState -> DBState
  | [], st => st
  | s :: rest, st => updateStocksLoop cfg api wfail rest (fetchStockData cfg api wfail st s).2

/-- `updateStockData`: read the tracked symbols once, then refresh each
sequentially, swallowing per-symbol errors. -/
def updateStockData (cfg : CryptoConfig) (api : ApiOracle) (wfail : WriteOracle)
    (st : DBState) : DBState :=
  let symbols := st.stocks.map (fun s => s.symbol)
  if symbols.isEmpty then st
  else updateStocksLoop cfg api wfail symbols st

/-! ## `notificationController.js` and the notification flush of `scheduler.js` -/

/-- Observable persistence/delivery events of a notification operation,
in the order they happen. -/
inductive Ev
  | insertNotif (id : Nat) (isSent : Bool)
  | attemptSend (message : String)
  /-- `UPDATE notifications SET ... WHERE id = ?`: `newIsSent` if the
  statement sets `is_sent`, `setsSentAt` if it sets `sent_at`. -/
  | updateNotifRow (id : Nat) (newIsSent : Option Bool) (setsSentAt : Bool)
  | deleteNotif (id : Nat)
deriving DecidableEq

/-- Response data of `POST /notifications`. -/
structure NotifData where
  id : Nat
  message : String
  ntype : String
  isSent : Bool
  warning : Option String
deriving DecidableEq

/-- Response of `POST /notifications`. -/
inductive NotifResp
  | badRequest (error : String)
  | ok (status : Nat) (data : NotifData)
deriving DecidableEq

/-- The row `createNotification` inserts. -/
def insertedRow (st : DBState) (msg ntype : String) (sent : Bool) : NotificationRow :=
  { id := st.nextNotifId, ntype := ntype, symbol := none, message := msg
    isSent := sent, createdAt := st.now, sentAt := none }

/-- The store right after `createNotification`'s INSERT. -/
def insertedState (st : DBState) (msg ntype : String) (sent : Bool) : DBState :=
  { st with notifs := st.notifs ++ [insertedRow st msg ntype sent]
            nextNotifId := st.nextNotifId + 1 }

/-- `createNotification`: insert the row first (with `is_sent` already
set to `send_now`!), then, when `send_now`, attempt synchronous delivery:
on success only `sent_at` is stamped (201); on failure `is_sent` is reset
to 0 and a 200 with a warning is returned. -/
def createNotification (cfg : CryptoConfig) (transport : Transport) (cache : Option (List Byte))
    (st : DBState) (message : Option String) (ntype : String) (send_now : Bool) :
    NotifResp × DBState × Option (List Byte) × List Ev :=
  if !truthyStr message then (.badRequest "Message is required", st, cache, [])
  else
    let msg := message.getD ""
    let id := st.nextNotifId
    let st1 : DBState := insertedState st msg ntype send_now
    if send_now then
      let (r, cache') := sendMessage cfg transport cache st1 msg
      match r with
      | .ok _ =>
        let st2 := updateNotif st1 id (fun n => { n with sentAt := some st1.now })
        (.ok 201 { id := id, message := msg, ntype := ntype, isSent := send_now, warning := none },
         st2, cache',
         [.insertNotif id send_now, .attemptSend msg, .updateNotifRow id none true])
      | .error _ =>
        let st2 := updateNotif st1 id (fun n => { n with isSent := false })
        (.ok 200 { id := id, message := msg, ntype := ntype, isSent := false
                   warning := some "Notification created but failed to send immediately" },
         st2, cache',
         [.insertNotif id send_now, .attemptSend msg, .updateNotifRow id (some false) false])
    else
      (.ok 201 { id := id, message := msg, ntype := ntype, isSent := send_now, warning := none },
       st1, cache, [.insertNotif id send_now])

/-- Marking a row sent: `SET is_sent = 1, sent_at = CURRENT_TIMESTAMP`. -/
def markSent (now : Nat) (n : NotificationRow) : NotificationRow :=
  { n with isSent := true, sentAt := some now }

/-- Response of `POST /notifications/{id}/send`. -/
inductive SendResp
  | notFound
  | alreadySent
  | okSent (id : Nat) (message : String)
  | serverError (error : String)
deriving DecidableEq

/-- `sendNotification`: 404 when missing, 400 when `is_sent` is already
set (without touching the row), otherwise deliver and mark sent. -/
def sendNotification (cfg : CryptoConfig) (transport : Transport) (cache : Option (List Byte))
    (st : DBState) (id : Nat) : SendResp × DBState × Option (List Byte) × List Ev :=
  match findNotif st id with
  | none => (.notFound, st, cache, [])
  | some n =>
    if n.isSent then (.alreadySent, st, cache, [])
    else
      let (r, cache') := sendMessage cfg transport cache st n.message
      match r with
      | .error _ => (.serverError "Failed to send notification", st, cache', [.attemptSend n.message])
      | .ok _ =>
        (.okSent id n.message, updateNotif st id (markSent st.now), cache',
         [.attemptSend n.message, .updateNotifRow id (some true) true])

/-- The per-notification loop of `sendDailyNotifications`, over the
pending rows read once before the loop: each delivery is wrapped in
try/catch, so a failure is logged and the scan continues. -/
def sendPendingLoop (cfg : CryptoConfig) (transport : Transport) :
    List NotificationRow -> DBState -> Option (List Byte) -> List Ev ->
    DBState × Option (List Byte) × List Ev
  | [], st, cache, evs => (st, cache, evs)
  | n :: rest, st, cache, evs =>
    let (r, cache') := sendMessage cfg transport cache st n.message
    match r with
    | .ok _ =>
      sendPendingLoop cfg transport rest (updateNotif st n.id (markSent st.now))
        cache' (evs ++ [.attemptSend n.message, .updateNotifRow n.id (some true) true])
    | .error _ =>
      sendPendingLoop cfg transport rest st cache' (evs ++ [.attemptSend n.message])

/-- `sendDailyNotifications`: no-op unless the `telegram_enabled` setting
is exactly `'true'`; otherwise scan all `is_sent = 0` rows in creation
order and attempt each delivery. -/
def sendDailyNotifications (cfg : CryptoConfig) (transport : Transport)
    (cache : Option (List Byte)) (st : DBState) : DBState × Option (List Byte) × List Ev :=
  if getSetting st "telegram_enabled" != some "true" then (st, cache, [])
  else
    let pending := st.notifs.filter (fun n => !n.isSent)
    sendPendingLoop cfg transport pending st cache []

/-! ## `predictionController.js`: `generatePrediction` -/

/-- The `Math.random()`/`toFixed` boundary of the stub predictor: the
directional draw in `[0,1)`, and the already-formatted confidence and
target-price strings. -/
structure PredDraw where
  r : ℚ
  confidence : String
  targetPrice : String

/-- The `new Date()` boundary: today's ISO date and the ISO date
`daysAhead` days from now. -/
structure DateOracle where
  today : String
  addDays : Nat -> String

/-- Response of `POST /predictions/generate`. -/
inductive PredResp
  | badRequest (error : String)
  | serverError (error : String)
  | notFound (error : String)
  | ok (p : PredRow)
deriving DecidableEq

/-- The directional call drawn from the random value. -/
def dirCall (r : ℚ) : String :=
  if r > 3/5 then "bullish" else if r > 3/10 then "neutral" else "bearish"

/-- `daysAhead` per timeframe label. -/
def daysAhead (timeframe : String) : Nat :=
  if timeframe == "short" then 7 else if timeframe == "medium" then 30 else 90

/-- `SELECT * FROM historical_prices WHERE symbol = ? ORDER BY date DESC
LIMIT 1`. -/
def latestPriceFor (st : DBState) (symbol : String) : Option PriceRow :=
  (st.prices.filter (fun p => p.symbol == symbol)).foldl
    (fun acc p =>
      match acc with
      | none => some p
      | some q => if p.date > q.date then some p else some q)
    none

/-- The `predictions` row bound by `generatePrediction`'s INSERT: the
request's timeframe label goes into the `prediction_type` column, the
target-date string into `timeframe`, and the directional call into
`prediction`. -/
def predRowOf (st : DBState) (dates : DateOracle) (draw : PredDraw) (sym tf : String) : PredRow :=
  { id := st.nextPredId, symbol := sym, date := dates.today
    predictionType := tf, timeframe := dates.addDays (daysAhead tf)
    prediction := dirCall draw.r, confidence := draw.confidence
    targetPrice := draw.targetPrice, createdAt := st.now }

/-- `generatePrediction`: validation, AI-key gate, latest-price lookup,
stub draw, then the INSERT whose bind order puts the request's timeframe
label into `prediction_type`, the target date into `timeframe`, and the
directional call into `prediction`. -/
def generatePrediction (cfg : CryptoConfig) (dates : DateOracle) (draw : PredDraw)
    (st : DBState) (symbol : Option String) (timeframe : Option String) :
    PredResp × DBState :=
  if !truthyStr symbol then (.badRequest "Stock symbol is required", st)
  else
    let sym := symbol.getD ""
    let tf := timeframe.getD ""
    if !truthyStr timeframe || !(["short", "medium", "long"].contains tf) then
      (.badRequest "Valid timeframe is required (short, medium, or long)", st)
    else
      let encryptedApiKey := getSetting st "ai_api_key"
      if !truthyStr encryptedApiKey then (.badRequest "AI API key is not set", st)
      else
        match decrypt cfg (encryptedApiKey.getD "") with
        | none => (.serverError "Failed to decrypt AI API key", st)
        | some apiKey =>
          if apiKey.isEmpty then (.serverError "Failed to decrypt AI API key", st)
          else
            match latestPriceFor st sym with
            | none => (.notFound "No historical data found for this stock", st)
            | some _ =>
              let row := predRowOf st dates draw sym tf
              (.ok row, { st with preds := st.preds ++ [row], nextPredId := st.nextPredId + 1 })

/-! ## Helper lemmas and fixtures -/

/-- Whether a delivery outcome is a success. -/
def isOkU : Except String Unit -> Bool
  | .ok _ => true
  | .error _ => false

/-! ## C7 -/

/-- Low-equivalence of two settings rows: equal keys and timestamps,
equal values on non-sensitive keys, and merely equal truthiness of the
values on sensitive keys. -/
def rowLowEq (r r' : SettingRow) : Bool :=
  r.key == r'.key && r.updatedAt == r'.updatedAt &&
    (if sensitiveKeys.contains r.key then truthyStr r.value == truthyStr r'.value
     else r.value == r'.value)

/-- Pointwise low-equivalence of two settings tables. -/
def settingsLowEq : List SettingRow -> List SettingRow -> Bool
  | [], [] => true
  | r :: rs, r' :: rs' => rowLowEq r r' && settingsLowEq rs rs'
  | _, _ => false

/-- A store whose `ai_api_key` ciphertext is `"aaaa"`. -/
def stSettingsA : DBState :=
  { settings := [{ key := "ai_api_key", value := some "aaaa", updatedAt := 5 },
                 { key := "stock_api_provider", value := some "alphavantage", updatedAt := 3 }]
    stocks := [], prices := [], preds := [], notifs := []
    nextNotifId := 1, nextPredId := 1, now := 10 }

/-- The same store with a different (equally non-empty) `ai_api_key`. -/
def stSettingsB : DBState :=
  { stSettingsA with settings := [{ key := "ai_api_key", value := some "bbbbbbbb", updatedAt := 5 },
                 { key := "stock_api_provider", value := some "alphavantage", updatedAt := 3 }] }

/-- A transport that accepts every delivery. -/
def transportOkAll : Transport := fun _ _ _ => .ok ()

/-- A store with no settings at all (no bot token configured). -/
def stNoToken : DBState :=
  { settings := [], stocks := [], prices := [], preds := [], notifs := []
    nextNotifId := 1, nextPredId := 1, now := 7 }

/-! ## C2 -/

/-- The prefix of price entries actually written before the first
failing write, counting writes from index `k`. -/
def writtenPrefix (wfail : WriteOracle) : Nat -> List PriceEntry -> List PriceEntry
  | _, [] => []
  | k, p :: rest => if wfail k then [] else p :: writtenPrefix wfail (k + 1) rest

/-- Apply the price upserts for a list of entries. -/
def applyPrices (symbol : String) (ps : List PriceEntry) (st : DBState) : DBState :=
  ps.foldl (fun st p => upsertPrice st (priceRowOf symbol p)) st

/-- AES-256-CBC ciphertext of the ASCII key `"testapikey123"` under
`testConfig`, as stored in the `stock_api_key` / `ai_api_key` settings. -/
def apiKeyCipher : String := "fcc831d5ca20fc1a63f91c10a34f3af1"

/-- A store holding only an encrypted `stock_api_key` (provider defaults
to `alphavantage`). -/
def stWithKey : DBState :=
  { settings := [{ key := "stock_api_key", value := some apiKeyCipher, updatedAt := 0 }]
    stocks := [], prices := [], preds := [], notifs := []
    nextNotifId := 1, nextPredId := 1, now := 3 }

/-- Two concrete series entries. -/
def peOct1 : PriceEntry :=
  { date := "2026-10-01", openP := 10, high := 12, low := 9, close := 11, volume := 1000 }

def peOct2 : PriceEntry :=
  { date := "2026-10-02", openP := 11, high := 13, low := 10, close := 12, volume := 900 }

def aaplOverview : Overview :=
  { symbol := "AAPL", name := "Apple Inc", exchange := "NASDAQ"
    sector := "Technology", industry := "Consumer Electronics" }

/-- Placeholder canonical data for the unused Yahoo branch. -/
def emptyStockData : StockData :=
  { stockInfo := { symbol := "", name := "", exchange := "", sector := "", industry := "" }
    historicalPrices := [] }

/-- An Alpha Vantage oracle that serves `AAPL` with the given series and
rejects every other symbol. -/
def oracleAAPL (series : List PriceEntry) : ApiOracle :=
  { avOverview := fun s _ => if s == "AAPL" then some aaplOverview else none
    avSeries := fun s _ => if s == "AAPL" then some series else none
    tdInfo := fun _ _ => none
    tdSeries := fun _ _ => none
    yahoo := fun _ => emptyStockData }

/-- An Alpha Vantage oracle whose series fetch always fails. -/
def oracleNoSeries : ApiOracle :=
  { avOverview := fun s _ => if s == "AAPL" then some aaplOverview else none
    avSeries := fun _ _ => none
    tdInfo := fun _ _ => none
    tdSeries := fun _ _ => none
    yahoo := fun _ => emptyStockData }

/-- Write oracle failing exactly the second price-row write. -/
def wfailSecondPrice : WriteOracle := fun k => k == 2

/-- No write ever fails. -/
def wfailNever : WriteOracle := fun _ => false

/-- A store with an encrypted `ai_api_key` and one `AAPL` price row. -/
def stWithAiKey : DBState :=
  { settings := [{ key := "ai_api_key", value := some apiKeyCipher, updatedAt := 0 }]
    stocks := [], prices := [priceRowOf "AAPL" peOct1], preds := [], notifs := []
    nextNotifId := 1, nextPredId := 1, now := 9 }

/-- Fixed date oracle for witnesses. -/
def datesFixed : DateOracle :=
  { today := "2026-10-11", addDays := fun d => if d == 7 then "2026-10-18" else "2026-11-10" }

/-- Fixed stub draw for witnesses (a bullish 0.7). -/
def drawFixed : PredDraw := { r := 7/10, confidence := "75.00", targetPrice := "123.45" }

/-- The events emitted by one flush over the pending snapshot, given
each message's delivery outcome. -/
def flushEvs (outcome : String -> Bool) : List NotificationRow -> List Ev
  | [] => []
  | n :: rest =>
    (if outcome n.message then [Ev.attemptSend n.message, Ev.updateNotifRow n.id (some true) true]
     else [Ev.attemptSend n.message]) ++ flushEvs outcome rest

/-- The messages attempted during a flush, in order. -/
def attemptsOf (evs : List Ev) : List String :=
  evs.filterMap (fun e => match e with | .attemptSend m => some m | _ => none)

/-- The three pending notifications of the C6 scenario. -/
def notif1 : NotificationRow :=
  { id := 1, ntype := "general", symbol := none, message := "m1"
    isSent := false, createdAt := 1, sentAt := none }

def notif2 : NotificationRow :=
  { id := 2, ntype := "general", symbol := none, message := "m2"
    isSent := false, createdAt := 2, sentAt := none }

def notif3 : NotificationRow :=
  { id := 3, ntype := "general", symbol := none, message := "m3"
    isSent := false, createdAt := 3, sentAt := none }

/-- A store with notifications enabled, a chat id, and three pending
notifications. -/
def stPending : DBState :=
  { settings := [{ key := "telegram_enabled", value := some "true", updatedAt := 0 },
                 { key := "telegram_chat_id", value := some "42", updatedAt := 0 }]
    stocks := [], prices := [], preds := [], notifs := [notif1, notif2, notif3]
    nextNotifId := 4, nextPredId := 1, now := 5 }

/-- A transport that rejects exactly the message `"m2"`. -/
def transportFail2 : Transport := fun _ _ m => if m == "m2" then .error "rate limited" else .ok ()

/-- A cached bot token for witnesses. -/
def botTok : List Byte := strBytes "tok"

/-! ## C8 -/

/-- Sent-flag map used to replay an event trace. -/
def lookupSentFlag (m : List (Nat × Bool)) (id : Nat) : Option Bool :=
  (m.find? (fun x => x.1 == id)).map (fun x => x.2)

def setSentFlag (m : List (Nat × Bool)) (id : Nat) (b : Bool) : List (Nat × Bool) :=
  m.map (fun x => if x.1 == id then (id, b) else x)

/-- Replay a trace over the initial rows' sent flags; `true` as soon as
some row update (other than a deletion) targets a row whose `is_sent`
flag is already set at that point. -/
def sentViolationGo : List (Nat × Bool) -> List Ev -> Bool
  | _, [] => false
  | m, Ev.insertNotif id b :: rest => sentViolationGo (m ++ [(id, b)]) rest
  | m, Ev.updateNotifRow id newSent _ :: rest =>
    if lookupSentFlag m id == some true then true
    else
      sentViolationGo (match newSent with | some b => setSentFlag m id b | none => m) rest
  | m, Ev.deleteNotif id :: rest => sentViolationGo (m.filter (fun x => !(x.1 == id))) rest
  | m, Ev.attemptSend _ :: rest => sentViolationGo m rest

/-- "A row with `isSent = true` is never mutated except by deletion",
as a decidable check over an operation's event trace. -/
def violatesSentImmutability (init : List NotificationRow) (evs : List Ev) : Bool :=
  sentViolationGo (init.map (fun n => (n.id, n.isSent))) evs

/-- A store with just a chat id configured and no notifications. -/
def stChatOnly : DBState :=
  { settings := [{ key := "telegram_chat_id", value := some "42", updatedAt := 0 }]
    stocks := [], prices := [], preds := [], notifs := []
    nextNotifId := 1, nextPredId := 1, now := 6 }

/-- An already-sent notification. -/
def sentNotif : NotificationRow :=
  { id := 9, ntype := "general", symbol := none, message := "done"
    isSent := true, createdAt := 1, sentAt := some 2 }

/-- A store with one already-sent notification, chat configured and
notifications enabled. -/
def stSentOne : DBState :=
  { settings := [{ key := "telegram_enabled", value := some "true", updatedAt := 0 },
                 { key := "telegram_chat_id", value := some "42", updatedAt := 0 }]
    stocks := [], prices := [], preds := [], notifs := [sentNotif]
    nextNotifId := 10, nextPredId := 1, now := 8 }

/-! ## Theorems -/

example : testConfig.key.length = 32 := by decide
example : fallbackConfig.key.length = 35 := by decide
example : decrypt testConfig "0b130d817e0d2b652af8dca0b7a0e1d9" = some (strBytes "k") := by decide
example : encrypt testConfig (strBytes "k") = .ok "0b130d817e0d2b652af8dca0b7a0e1d9" := by decide

/-- `sendMessage` reads only the settings (besides its explicit
arguments), so states with equal settings behave alike. -/
theorem sendMessage_settings_congr (cfg : CryptoConfig) (transport : Transport)
    (cache : Option (List Byte)) (st st' : DBState) (msg : String)
    (h : st.settings = st'.settings) :
    sendMessage cfg transport cache st msg = sendMessage cfg transport cache st' msg := by
  unfold sendMessage getBot getSetting
  rw [h]

/-! ## C3 -/

/-- C3: the claim says `decrypt(encrypt(x)) = x` also under the fallback
literals, but the fallback key `'your-secret-encryption-key-32-chars'`
is 35 bytes (despite the source's `// 32 bytes` comment), and
`createCipheriv('aes-256-cbc', ...)` requires exactly 32: `encrypt`
throws an invalid-key-length error before producing any ciphertext, so
the round trip never returns.  (`decrypt` swallows the same error and
yields `null` for every input under the fallback configuration.) -/
theorem encrypt_fallback_key_invalid :
    fallbackConfig.key.length = 35 ∧
    encrypt fallbackConfig (strBytes "x") = .error .invalidKeyLength ∧
    decrypt fallbackConfig (hexEncode (cbcEnc fallbackConfig.key fallbackConfig.iv (strBytes "x"))) = none := by
  decide

/-! ## C4 -/

/-- C4: `decrypt` never lets a cryptographic failure escape: whenever the
try-block body (`decryptRaw`) throws — wrong key/IV length, non-hex or
truncated ciphertext, bad padding — `decrypt` returns `none`. -/
theorem decrypt_never_throws (cfg : CryptoConfig) (s : String) (e : CryptoErr)
    (h : decryptRaw cfg s = .error e) : decrypt cfg s = none := by
  unfold decrypt
  rw [h]

/-- Witness for C4: the non-hex input `"zz"` fails inside the try block
(under a valid 32-byte key) and `decrypt` returns `none`. -/
theorem decrypt_never_throws_witness :
    decryptRaw testConfig "zz" = .error .wrongFinalBlockLength ∧
    decrypt testConfig "zz" = none :=
  ⟨by decide, decrypt_never_throws testConfig "zz" .wrongFinalBlockLength (by decide)⟩

/-! ## C9 -/

/-- C9: `registerChat` calls the one-parameter `getSetting` with a
second argument, which JavaScript ignores: only a SELECT runs.  The call
returns `true` and leaves the whole store — in particular every setting
and `telegram_chat_id` — unchanged. -/
theorem registerChat_writes_nothing (st : DBState) (chatId : String) :
    registerChat st chatId = (true, st) ∧
    (registerChat st chatId).2.settings = st.settings ∧
    getSetting (registerChat st chatId).2 "telegram_chat_id" =
      getSetting st "telegram_chat_id" :=
  ⟨rfl, rfl, rfl⟩

theorem processSetting_lowEq (r r' : SettingRow) (h : rowLowEq r r' = true) :
    processSetting r = processSetting r' := by
  unfold rowLowEq at h
  simp only [Bool.and_eq_true, beq_iff_eq] at h
  obtain ⟨⟨hk, hu⟩, hv⟩ := h
  unfold processSetting
  rw [hk, hu]
  by_cases hs : sensitiveKeys.contains r'.key
  · rw [hk] at hv
    rw [if_pos hs] at hv
    rw [if_pos hs, if_pos hs]
    rw [beq_iff_eq] at hv
    rw [hv]
  · rw [hk] at hv
    rw [if_neg hs] at hv
    rw [if_neg hs, if_neg hs]
    rw [beq_iff_eq] at hv
    rw [hv]

theorem map_processSetting_lowEq :
    ∀ l l' : List SettingRow, settingsLowEq l l' = true ->
      l.map processSetting = l'.map processSetting
  | [], [], _ => rfl
  | r :: rs, r' :: rs', h => by
    unfold settingsLowEq at h
    simp only [Bool.and_eq_true] at h
    simp only [List.map_cons]
    rw [processSetting_lowEq r r' h.1, map_processSetting_lowEq rs rs' h.2]
  | [], _ :: _, h => by simp [settingsLowEq] at h
  | _ :: _, [], h => by simp [settingsLowEq] at h

/-- C7: the settings listing depends on a sensitive stored value only
through its truthiness — two stores that agree outside the sensitive
values (and on their emptiness) produce identical responses — and every
sensitive row is emitted as `{key, isSet, updated_at}` with no value
field at all. -/
theorem getAllSettings_redacts (st st' : DBState)
    (h : settingsLowEq st.settings st'.settings = true) :
    getAllSettings st = getAllSettings st' ∧
    ∀ r ∈ st.settings, sensitiveKeys.contains r.key = true ->
      processSetting r = .redacted r.key (truthyStr r.value) r.updatedAt := by
  constructor
  · exact map_processSetting_lowEq st.settings st'.settings h
  · intro r _ hr
    unfold processSetting
    rw [hr]
    simp

/-- Witness for C7: two stores differing only in the stored
`ai_api_key` value produce the same redacted listing. -/
theorem getAllSettings_redacts_witness :
    settingsLowEq stSettingsA.settings stSettingsB.settings = true ∧
    (getAllSettings stSettingsA = getAllSettings stSettingsB ∧
     ∀ r ∈ stSettingsA.settings, sensitiveKeys.contains r.key = true ->
       processSetting r = .redacted r.key (truthyStr r.value) r.updatedAt) :=
  ⟨by decide, getAllSettings_redacts stSettingsA stSettingsB (by decide)⟩

/-! ## C5 -/

theorem map_update_append_fresh (l : List NotificationRow) (id : Nat)
    (f : NotificationRow -> NotificationRow) (row : NotificationRow)
    (hfresh : ∀ n ∈ l, n.id ≠ id) (hrow : row.id = id) :
    (l ++ [row]).map (fun n => if n.id == id then f n else n) = l ++ [f row] := by
  induction l with
  | nil => simp [hrow]
  | cons n rest ih =>
    have hn : n.id ≠ id := hfresh n (List.mem_cons_self n rest)
    simp only [List.cons_append, List.map_cons]
    rw [if_neg (by simp [hn])]
    rw [ih (fun m hm => hfresh m (List.mem_cons_of_mem n hm))]

/-- C5: `createNotification` with `send_now` always inserts the row
before the delivery attempt, and a failed synchronous delivery still
returns a success (200) carrying the created notification with
`is_sent = false` and a warning, while the stored row ends with
`isSent = false`. -/
theorem createNotification_sendNow (cfg : CryptoConfig) (transport : Transport)
    (cache : Option (List Byte)) (st : DBState) (msg ntype : String)
    (hmsg : msg.isEmpty = false)
    (hfresh : ∀ n ∈ st.notifs, n.id ≠ st.nextNotifId) :
    ((createNotification cfg transport cache st (some msg) ntype true).2.2.2.take 2 =
        [Ev.insertNotif st.nextNotifId true, Ev.attemptSend msg]) ∧
    (∀ e, (sendMessage cfg transport cache st msg).1 = .error e ->
      (createNotification cfg transport cache st (some msg) ntype true).1 =
          .ok 200 { id := st.nextNotifId, message := msg, ntype := ntype, isSent := false
                    warning := some "Notification created but failed to send immediately" } ∧
      (createNotification cfg transport cache st (some msg) ntype true).2.1.notifs =
          st.notifs ++ [{ insertedRow st msg ntype true with isSent := false }] ∧
      (createNotification cfg transport cache st (some msg) ntype true).2.2.2 =
          [Ev.insertNotif st.nextNotifId true, Ev.attemptSend msg,
           Ev.updateNotifRow st.nextNotifId (some false) false]) := by
  have htr : truthyStr (some msg) = true := by simp [truthyStr, hmsg]
  have hcongr :
      sendMessage cfg transport cache (insertedState st msg ntype true) msg =
        sendMessage cfg transport cache st msg :=
    sendMessage_settings_congr cfg transport cache _ st msg rfl
  constructor
  · unfold createNotification
    rw [htr]
    simp only [Bool.not_true, Bool.false_eq_true, if_false, if_true, Option.getD_some]
    rcases hr : (sendMessage cfg transport cache (insertedState st msg ntype true) msg).1 with u | e2
    · simp [hr]
    · simp [hr]
  · intro e he
    unfold createNotification
    rw [htr]
    simp only [Bool.not_true, Bool.false_eq_true, if_false, if_true, Option.getD_some]
    have h1 : (sendMessage cfg transport cache (insertedState st msg ntype true) msg).1 =
        .error e := by rw [hcongr, he]
    rw [h1]
    simp only
    refine ⟨trivial, ?_, trivial⟩
    show (updateNotif (insertedState st msg ntype true) st.nextNotifId
        (fun n => { n with isSent := false })).notifs = _
    unfold updateNotif insertedState
    simp only
    rw [map_update_append_fresh st.notifs st.nextNotifId _ _ hfresh rfl]

/-- Witness for C5: with no bot token configured, `sendMessage` fails,
yet the creation succeeds with a 200, a warning, and `isSent = false`. -/
theorem createNotification_sendNow_witness :
    (("test" : String).isEmpty = false ∧
      ∀ n ∈ stNoToken.notifs, n.id ≠ stNoToken.nextNotifId) ∧
    ((createNotification testConfig transportOkAll none stNoToken (some "test") "general" true).2.2.2.take 2 =
        [Ev.insertNotif stNoToken.nextNotifId true, Ev.attemptSend "test"]) ∧
    (∀ e, (sendMessage testConfig transportOkAll none stNoToken "test").1 = .error e ->
      (createNotification testConfig transportOkAll none stNoToken (some "test") "general" true).1 =
          .ok 200 { id := stNoToken.nextNotifId, message := "test", ntype := "general", isSent := false
                    warning := some "Notification created but failed to send immediately" } ∧
      (createNotification testConfig transportOkAll none stNoToken (some "test") "general" true).2.1.notifs =
          stNoToken.notifs ++ [{ insertedRow stNoToken "test" "general" true with isSent := false }] ∧
      (createNotification testConfig transportOkAll none stNoToken (some "test") "general" true).2.2.2 =
          [Ev.insertNotif stNoToken.nextNotifId true, Ev.attemptSend "test",
           Ev.updateNotifRow stNoToken.nextNotifId (some false) false]) :=
  ⟨⟨by decide, by decide⟩,
   createNotification_sendNow testConfig transportOkAll none stNoToken "test" "general"
     (by decide) (by decide)⟩

example : (sendMessage testConfig transportOkAll none stNoToken "test").1 =
    .error "Telegram token is not set" := by decide

theorem savePricesLoop_state (wfail : WriteOracle) (symbol : String) :
    ∀ (ps : List PriceEntry) (k : Nat) (st : DBState),
      (savePricesLoop wfail symbol k ps st).2 =
        applyPrices symbol (writtenPrefix wfail k ps) st
  | [], k, st => rfl
  | p :: rest, k, st => by
    unfold savePricesLoop writtenPrefix
    by_cases h : wfail k
    · rw [if_pos h, if_pos h]
      rfl
    · rw [if_neg h, if_neg h]
      rw [savePricesLoop_state wfail symbol rest (k + 1) (upsertPrice st (priceRowOf symbol p))]
      rfl

theorem savePricesLoop_ok (wfail : WriteOracle) (symbol : String)
    (hok : ∀ j, wfail j = false) :
    ∀ (ps : List PriceEntry) (k : Nat) (st : DBState),
      savePricesLoop wfail symbol k ps st = (.ok (), applyPrices symbol ps st)
  | [], k, st => rfl
  | p :: rest, k, st => by
    unfold savePricesLoop
    rw [hok k]
    simp only [Bool.false_eq_true, if_false]
    rw [savePricesLoop_ok wfail symbol hok rest (k + 1) (upsertPrice st (priceRowOf symbol p))]
    rfl

/-- C2 (amended): persistence of a refresh call is not transactional.
If the fetch phase fails (for instance the price-series fetch), nothing
at all is written; if no write fails, the Stock upsert and every
PricePoint upsert take effect; but when the k-th price-row write fails,
the Stock upsert and the price rows before index k remain persisted —
a half-written PricePoint set is possible. -/
theorem fetch_persistence_shape (cfg : CryptoConfig) (api : ApiOracle) (wfail : WriteOracle)
    (st : DBState) (symbol : String) (sd : StockData) :
    (∀ e, resolveAndFetch cfg api st symbol = .error e ->
        fetchStockData cfg api wfail st symbol = (.error e, st)) ∧
    ((saveStockData wfail st sd).2 =
        if wfail 0 then st
        else applyPrices sd.stockInfo.symbol (writtenPrefix wfail 1 sd.historicalPrices)
               (upsertStock st (stockRowOf st sd.stockInfo))) ∧
    ((∀ j, wfail j = false) ->
        saveStockData wfail st sd =
          (.ok (), applyPrices sd.stockInfo.symbol sd.historicalPrices
                     (upsertStock st (stockRowOf st sd.stockInfo)))) := by
  refine ⟨?_, ?_, ?_⟩
  · intro e he
    unfold fetchStockData
    rw [he]
  · unfold saveStockData
    by_cases h : wfail 0
    · rw [if_pos h, if_pos h]
    · rw [if_neg h, if_neg h]
      exact savePricesLoop_state wfail sd.stockInfo.symbol sd.historicalPrices 1 _
  · intro hok
    unfold saveStockData
    rw [hok 0]
    simp only [Bool.false_eq_true, if_false]
    exact savePricesLoop_ok wfail sd.stockInfo.symbol hok sd.historicalPrices 1 _

/-- Counterexample for C2: a refresh of `AAPL` whose second price-row
write fails throws, yet leaves the stock row and the first price row
persisted — the claimed all-or-nothing persistence does not hold. -/
theorem saveStockData_not_atomic_counterexample :
    (fetchStockData testConfig (oracleAAPL [peOct1, peOct2]) wfailSecondPrice stWithKey "AAPL").1 =
        .error "SQLITE_ERROR: historical_prices write failed" ∧
    ((fetchStockData testConfig (oracleAAPL [peOct1, peOct2]) wfailSecondPrice stWithKey "AAPL").2.stocks.map
        (fun r => r.symbol)) = ["AAPL"] ∧
    ((fetchStockData testConfig (oracleAAPL [peOct1, peOct2]) wfailSecondPrice stWithKey "AAPL").2.prices.map
        (fun r => r.date)) = ["2026-10-01"] := by
  decide

/-- Witness for C2 (amended): when the price-series fetch fails, the
call errors and nothing is persisted; and with no write failure the save
is total. -/
theorem fetch_persistence_shape_witness :
    (resolveAndFetch testConfig oracleNoSeries stWithKey "AAPL" =
        .error "Invalid response from Alpha Vantage API" ∧
      (∀ j, wfailNever j = false)) ∧
    (fetchStockData testConfig oracleNoSeries wfailNever stWithKey "AAPL" =
        (.error "Invalid response from Alpha Vantage API", stWithKey)) ∧
    (saveStockData wfailNever stWithKey (StockData.mk aaplOverview [peOct1]) =
        (.ok (), applyPrices "AAPL" [peOct1] (upsertStock stWithKey (stockRowOf stWithKey aaplOverview)))) :=
  ⟨⟨by decide, fun _ => rfl⟩,
   (fetch_persistence_shape testConfig oracleNoSeries wfailNever stWithKey "AAPL"
       (StockData.mk aaplOverview [peOct1])).1 _ (by decide),
   (fetch_persistence_shape testConfig oracleNoSeries wfailNever stWithKey "AAPL"
       (StockData.mk aaplOverview [peOct1])).2.2 (fun _ => rfl)⟩

/-! ## C1 -/

theorem updateStocksLoop_eq_refreshAll (cfg : CryptoConfig) (api : ApiOracle)
    (wfail : WriteOracle) :
    ∀ (l : List String) (st : DBState),
      updateStocksLoop cfg api wfail l st = (refreshAll cfg api wfail l st).2
  | [], st => rfl
  | s :: rest, st => by
    unfold updateStocksLoop refreshAll
    rw [updateStocksLoop_eq_refreshAll cfg api wfail rest (fetchStockData cfg api wfail st s).2]

/-- C1 (amended): in both batch paths every symbol is processed and each
successful symbol's writes land even when another symbol fails — the
final store is the sequential fold over all symbols regardless of
per-symbol outcomes — and the scheduler's loop swallows per-symbol
errors; but the REST refresh reports per-symbol outcomes only when all
symbols succeed: any failure makes `Promise.all` reject and the route
answers with a single server error, not per-symbol outcomes. -/
theorem refresh_batch_writes_independent (cfg : CryptoConfig) (api : ApiOracle)
    (wfail : WriteOracle) (st : DBState) (syms : List String)
    (hne : syms.isEmpty = false) :
    ((refreshStockData cfg api wfail st (some syms)).2 = (refreshAll cfg api wfail syms st).2) ∧
    (∀ e, firstError (refreshAll cfg api wfail syms st).1 = some e ->
        (refreshStockData cfg api wfail st (some syms)).1 = .serverError e) ∧
    (firstError (refreshAll cfg api wfail syms st).1 = none ->
        (refreshStockData cfg api wfail st (some syms)).1 =
          .ok (okResults (refreshAll cfg api wfail syms st).1)) ∧
    (updateStockData cfg api wfail st =
        (refreshAll cfg api wfail (st.stocks.map (fun s => s.symbol)) st).2) := by
  refine ⟨?_, ?_, ?_, ?_⟩
  · show (refreshRoute cfg api wfail syms st).2 = _
    unfold refreshRoute
    rw [hne]
    simp only [Bool.false_eq_true, if_false]
    rcases h : firstError (refreshAll cfg api wfail syms st).1 with _ | e
    · rfl
    · rfl
  · intro e he
    show (refreshRoute cfg api wfail syms st).1 = _
    unfold refreshRoute
    rw [hne]
    simp only [Bool.false_eq_true, if_false]
    rw [he]
  · intro hnone
    show (refreshRoute cfg api wfail syms st).1 = _
    unfold refreshRoute
    rw [hne]
    simp only [Bool.false_eq_true, if_false]
    rw [hnone]
  · unfold updateStockData
    by_cases h : (st.stocks.map (fun s => s.symbol)).isEmpty
    · rw [if_pos h]
      rw [List.isEmpty_iff] at h
      rw [h]
      rfl
    · rw [if_neg h]
      exact updateStocksLoop_eq_refreshAll cfg api wfail _ st

/-- Counterexample for C1: refreshing `["AAPL", "BAD$"]` where the
provider rejects `BAD$` persists AAPL's stock and price rows, but the
response is the single uniform server error of the rejected
`Promise.all` — no per-symbol outcome is reported for either symbol. -/
theorem refresh_no_per_symbol_outcomes_counterexample :
    (refreshStockData testConfig (oracleAAPL [peOct1]) wfailNever stWithKey
        (some ["AAPL", "BAD$"])).1 = .serverError "Invalid response from Alpha Vantage API" ∧
    ((refreshStockData testConfig (oracleAAPL [peOct1]) wfailNever stWithKey
        (some ["AAPL", "BAD$"])).2.stocks.map (fun r => r.symbol)) = ["AAPL"] ∧
    ((refreshStockData testConfig (oracleAAPL [peOct1]) wfailNever stWithKey
        (some ["AAPL", "BAD$"])).2.prices.map (fun r => r.date)) = ["2026-10-01"] := by
  decide

/-- Witness for C1 (amended), on the same batch: the state is the full
fold over both symbols, and the failing batch yields the single error. -/
theorem refresh_batch_writes_independent_witness :
    ((["AAPL", "BAD$"] : List String).isEmpty = false ∧
      firstError (refreshAll testConfig (oracleAAPL [peOct1]) wfailNever ["AAPL", "BAD$"] stWithKey).1 =
        some "Invalid response from Alpha Vantage API") ∧
    ((refreshStockData testConfig (oracleAAPL [peOct1]) wfailNever stWithKey (some ["AAPL", "BAD$"])).2 =
        (refreshAll testConfig (oracleAAPL [peOct1]) wfailNever ["AAPL", "BAD$"] stWithKey).2) ∧
    ((refreshStockData testConfig (oracleAAPL [peOct1]) wfailNever stWithKey (some ["AAPL", "BAD$"])).1 =
        .serverError "Invalid response from Alpha Vantage API") ∧
    (updateStockData testConfig (oracleAAPL [peOct1]) wfailNever stWithKey =
        (refreshAll testConfig (oracleAAPL [peOct1]) wfailNever
          (stWithKey.stocks.map (fun s => s.symbol)) stWithKey).2) :=
  ⟨⟨by decide, by decide⟩,
   (refresh_batch_writes_independent testConfig (oracleAAPL [peOct1]) wfailNever stWithKey
       ["AAPL", "BAD$"] (by decide)).1,
   (refresh_batch_writes_independent testConfig (oracleAAPL [peOct1]) wfailNever stWithKey
       ["AAPL", "BAD$"] (by decide)).2.1 _ (by decide),
   (refresh_batch_writes_independent testConfig (oracleAAPL [peOct1]) wfailNever stWithKey
       ["AAPL", "BAD$"] (by decide)).2.2.2⟩

/-! ## C10 -/

/-- C10: on the success path, the row `generatePrediction` stores (and
returns) binds the request's timeframe label into the `prediction_type`
column, the computed target-date string into the `timeframe` column, and
the directional call into the `prediction` column — swapped relative to
the column names. -/
theorem generatePrediction_swapped_columns (cfg : CryptoConfig) (dates : DateOracle)
    (draw : PredDraw) (st : DBState) (sym tf : String) (keyBytes : List Byte) (lp : PriceRow)
    (hsym : sym.isEmpty = false)
    (htf : tf = "short" ∨ tf = "medium" ∨ tf = "long")
    (hkey : truthyStr (getSetting st "ai_api_key") = true)
    (hdec : decrypt cfg ((getSetting st "ai_api_key").getD "") = some keyBytes)
    (hne : keyBytes.isEmpty = false)
    (hlp : latestPriceFor st sym = some lp) :
    generatePrediction cfg dates draw st (some sym) (some tf) =
      (.ok (predRowOf st dates draw sym tf),
       { st with preds := st.preds ++ [predRowOf st dates draw sym tf]
                 nextPredId := st.nextPredId + 1 }) ∧
    (predRowOf st dates draw sym tf).predictionType = tf ∧
    (predRowOf st dates draw sym tf).timeframe = dates.addDays (daysAhead tf) ∧
    (predRowOf st dates draw sym tf).prediction = dirCall draw.r := by
  refine ⟨?_, rfl, rfl, rfl⟩
  have hsymT : truthyStr (some sym) = true := by simp [truthyStr, hsym]
  have htfT : truthyStr (some tf) = true := by
    rcases htf with h | h | h <;> rw [h] <;> decide
  have htfC : (["short", "medium", "long"] : List String).contains tf = true := by
    rcases htf with h | h | h <;> rw [h] <;> decide
  unfold generatePrediction
  rw [hsymT]
  simp only [Bool.not_true, Bool.false_eq_true, if_false, Option.getD_some]
  rw [htfT, htfC]
  simp only [Bool.not_true, Bool.or_self, Bool.false_eq_true, if_false]
  rw [hkey]
  simp only [Bool.not_true, Bool.false_eq_true, if_false]
  rw [hdec]
  simp only
  rw [hne]
  simp only [Bool.false_eq_true, if_false]
  rw [hlp]

/-- Witness for C10: a concrete `short` prediction for `AAPL` stores the
label `"short"` in `prediction_type`, the target date in `timeframe`,
and `"bullish"` in `prediction`. -/
theorem generatePrediction_swapped_columns_witness :
    (("AAPL" : String).isEmpty = false ∧
      truthyStr (getSetting stWithAiKey "ai_api_key") = true ∧
      decrypt testConfig ((getSetting stWithAiKey "ai_api_key").getD "") =
        some (strBytes "testapikey123") ∧
      latestPriceFor stWithAiKey "AAPL" = some (priceRowOf "AAPL" peOct1)) ∧
    (generatePrediction testConfig datesFixed drawFixed stWithAiKey (some "AAPL") (some "short") =
        (.ok (predRowOf stWithAiKey datesFixed drawFixed "AAPL" "short"),
         { stWithAiKey with
             preds := stWithAiKey.preds ++ [predRowOf stWithAiKey datesFixed drawFixed "AAPL" "short"]
             nextPredId := stWithAiKey.nextPredId + 1 }) ∧
      (predRowOf stWithAiKey datesFixed drawFixed "AAPL" "short").predictionType = "short" ∧
      (predRowOf stWithAiKey datesFixed drawFixed "AAPL" "short").timeframe =
        datesFixed.addDays (daysAhead "short") ∧
      (predRowOf stWithAiKey datesFixed drawFixed "AAPL" "short").prediction = dirCall drawFixed.r) :=
  ⟨⟨by decide, by decide, by decide, by decide⟩,
   generatePrediction_swapped_columns testConfig datesFixed drawFixed stWithAiKey "AAPL" "short"
     (strBytes "testapikey123") (priceRowOf "AAPL" peOct1)
     (by decide) (Or.inl rfl) (by decide) (by decide) (by decide) (by decide)⟩

example : (predRowOf stWithAiKey datesFixed drawFixed "AAPL" "short").timeframe = "2026-10-18" :=
  rfl

example : dirCall drawFixed.r = "bullish" := by
  unfold dirCall drawFixed
  norm_num

/-! ## Flush-loop specification (shared by the C6 and C8 theorems) -/

@[simp] theorem updateNotif_now (st : DBState) (i : Nat) (f : NotificationRow -> NotificationRow) :
    (updateNotif st i f).now = st.now := rfl

@[simp] theorem getSetting_updateNotif (st : DBState) (i : Nat)
    (f : NotificationRow -> NotificationRow) (k : String) :
    getSetting (updateNotif st i f) k = getSetting st k := rfl

@[simp] theorem markSent_id (now : Nat) (n : NotificationRow) : (markSent now n).id = n.id := rfl

/-- With the bot already cached, `sendMessage` is exactly one transport
call to the configured chat. -/
theorem sendMessage_cached (cfg : CryptoConfig) (transport : Transport) (bot : List Byte)
    (st : DBState) (m chat : String)
    (hchat : getSetting st "telegram_chat_id" = some chat) (hne : chat.isEmpty = false) :
    sendMessage cfg transport (some bot) st m = (transport bot chat m, some bot) := by
  unfold sendMessage getBot
  rw [hchat]
  simp [truthyStr, hne]

theorem find?_map_preserve (l : List NotificationRow) (i id0 : Nat)
    (f : NotificationRow -> NotificationRow) (hf : ∀ n, (f n).id = n.id) (h : id0 ≠ i) :
    (l.map (fun n => if n.id == i then f n else n)).find? (fun n => n.id == id0) =
      l.find? (fun n => n.id == id0) := by
  induction l with
  | nil => rfl
  | cons n rest ih =>
    by_cases hn : n.id = i
    · have h1 : ((f n).id == id0) = false := by
        rw [hf n, hn]
        simp only [beq_eq_false_iff_ne]
        exact Ne.symm h
      have h2 : (n.id == id0) = false := by
        rw [hn]
        simp only [beq_eq_false_iff_ne]
        exact Ne.symm h
      have hb : (n.id == i) = true := by simp [hn]
      simp only [List.map_cons, List.find?, hb, if_true, h1, h2]
      exact ih
    · have hb : (n.id == i) = false := by simp [hn]
      simp only [List.map_cons, List.find?, hb, Bool.false_eq_true, if_false]
      cases hd : (n.id == id0) with
      | false => exact ih
      | true => rfl

theorem find?_map_update_self (l : List NotificationRow) (i : Nat)
    (f : NotificationRow -> NotificationRow) (hf : ∀ n, (f n).id = n.id)
    (p : NotificationRow) (hp : l.find? (fun n => n.id == i) = some p) :
    (l.map (fun n => if n.id == i then f n else n)).find? (fun n => n.id == i) = some (f p) := by
  induction l with
  | nil => simp [List.find?] at hp
  | cons n rest ih =>
    by_cases hn : n.id = i
    · have hb : (n.id == i) = true := by simp [hn]
      have hb2 : ((f n).id == i) = true := by simp [hf n, hn]
      rw [List.find?, hb] at hp
      have hpn : n = p := by simpa using hp
      simp only [List.map_cons, List.find?, hb, if_true, hb2]
      rw [hpn]
    · have hb : (n.id == i) = false := by simp [hn]
      rw [List.find?, hb] at hp
      simp only [List.map_cons, List.find?, hb, Bool.false_eq_true, if_false]
      exact ih hp

theorem find?_eq_of_mem_nodup (l : List NotificationRow)
    (hN : (l.map (fun n => n.id)).Nodup) (p : NotificationRow) (hp : p ∈ l) :
    l.find? (fun n => n.id == p.id) = some p := by
  induction l with
  | nil => simp at hp
  | cons n rest ih =>
    simp only [List.map_cons, List.nodup_cons] at hN
    rcases List.mem_cons.mp hp with h | h
    · rw [h]
      simp [List.find?]
    · have hne : (n.id == p.id) = false := by
        simp only [beq_eq_false_iff_ne]
        intro hc
        exact hN.1 (hc ▸ List.mem_map_of_mem (fun n => n.id) h)
      rw [List.find?, hne]
      exact ih hN.2 h

/-- Full behaviour of the flush loop with a cached bot: per-row final
value determined by that row's own delivery outcome, untouched rows
preserved, the cache kept, and one delivery attempt per pending row in
order. -/
theorem sendPendingLoop_spec (cfg : CryptoConfig) (transport : Transport) (bot : List Byte)
    (chat : String) (hne : chat.isEmpty = false) :
    ∀ (pend : List NotificationRow) (st : DBState) (evs : List Ev),
      getSetting st "telegram_chat_id" = some chat ->
      (pend.map (fun n => n.id)).Nodup ->
      (∀ p ∈ pend, findNotif st p.id = some p) ->
      (∀ id0, findNotif (sendPendingLoop cfg transport pend st (some bot) evs).1 id0 =
        (match pend.find? (fun p => p.id == id0) with
         | some p => some (if isOkU (transport bot chat p.message) then markSent st.now p else p)
         | none => findNotif st id0)) ∧
      (sendPendingLoop cfg transport pend st (some bot) evs).2.1 = some bot ∧
      (sendPendingLoop cfg transport pend st (some bot) evs).2.2 =
        evs ++ flushEvs (fun m => isOkU (transport bot chat m)) pend := by
  intro pend
  induction pend with
  | nil =>
    intro st evs hchat hnd hmem
    refine ⟨?_, rfl, by simp [sendPendingLoop, flushEvs]⟩
    intro id0
    rfl
  | cons n rest ih =>
    intro st evs hchat hnd hmem
    have hsm : sendMessage cfg transport (some bot) st n.message =
        (transport bot chat n.message, some bot) :=
      sendMessage_cached cfg transport bot st n.message chat hchat hne
    simp only [List.map_cons, List.nodup_cons] at hnd
    have hnId : n.id ∉ rest.map (fun n => n.id) := hnd.1
    have hmemHead : findNotif st n.id = some n := hmem n (List.mem_cons_self n rest)
    cases hout : transport bot chat n.message with
    | ok u =>
      have hloop : sendPendingLoop cfg transport (n :: rest) st (some bot) evs =
          sendPendingLoop cfg transport rest (updateNotif st n.id (markSent st.now)) (some bot)
            (evs ++ [Ev.attemptSend n.message, Ev.updateNotifRow n.id (some true) true]) := by
        conv_lhs => rw [sendPendingLoop]
        rw [hsm, hout]
      have hmem' : ∀ p ∈ rest, findNotif (updateNotif st n.id (markSent st.now)) p.id = some p := by
        intro p hp
        have hne2 : p.id ≠ n.id := by
          intro hc
          exact hnId (hc ▸ List.mem_map_of_mem (fun n => n.id) hp)
        show (st.notifs.map (fun m => if m.id == n.id then markSent st.now m else m)).find?
            (fun m => m.id == p.id) = some p
        rw [find?_map_preserve st.notifs n.id p.id (markSent st.now) (markSent_id st.now) hne2]
        exact hmem p (List.mem_cons_of_mem n hp)
      obtain ⟨iha, ihb, ihc⟩ := ih (updateNotif st n.id (markSent st.now))
        (evs ++ [Ev.attemptSend n.message, Ev.updateNotifRow n.id (some true) true])
        hchat hnd.2 hmem'
      refine ⟨?_, ?_, ?_⟩
      · intro id0
        rw [hloop, iha id0]
        simp only [updateNotif_now]
        by_cases hid : n.id = id0
        · have hb : (n.id == id0) = true := by simp [hid]
          have hrest : rest.find? (fun p => p.id == id0) = none := by
            rw [List.find?_eq_none]
            intro x hx
            intro hc
            rw [beq_iff_eq] at hc
            exact hnId (hid ▸ hc ▸ List.mem_map_of_mem (fun n => n.id) hx)
          rw [hrest]
          simp only [List.find?, hb]
          have hself : findNotif (updateNotif st n.id (markSent st.now)) id0 =
              some (markSent st.now n) := by
            subst hid
            exact find?_map_update_self st.notifs n.id (markSent st.now) (markSent_id st.now)
              n hmemHead
          rw [hself, hout]
          simp [isOkU]
        · have hb : (n.id == id0) = false := by simp [hid]
          simp only [List.find?, hb]
          cases hrest : rest.find? (fun p => p.id == id0) with
          | some p => rfl
          | none =>
            show findNotif (updateNotif st n.id (markSent st.now)) id0 = findNotif st id0
            exact find?_map_preserve st.notifs n.id id0 (markSent st.now) (markSent_id st.now)
              (Ne.symm hid)
      · rw [hloop]
        exact ihb
      · rw [hloop, ihc]
        simp [flushEvs, hout, isOkU, List.append_assoc]
    | error e =>
      have hloop : sendPendingLoop cfg transport (n :: rest) st (some bot) evs =
          sendPendingLoop cfg transport rest st (some bot) (evs ++ [Ev.attemptSend n.message]) := by
        conv_lhs => rw [sendPendingLoop]
        rw [hsm, hout]
      have hmem' : ∀ p ∈ rest, findNotif st p.id = some p :=
        fun p hp => hmem p (List.mem_cons_of_mem n hp)
      obtain ⟨iha, ihb, ihc⟩ := ih st (evs ++ [Ev.attemptSend n.message]) hchat hnd.2 hmem'
      refine ⟨?_, ?_, ?_⟩
      · intro id0
        rw [hloop, iha id0]
        by_cases hid : n.id = id0
        · have hb : (n.id == id0) = true := by simp [hid]
          have hrest : rest.find? (fun p => p.id == id0) = none := by
            rw [List.find?_eq_none]
            intro x hx
            intro hc
            rw [beq_iff_eq] at hc
            exact hnId (hid ▸ hc ▸ List.mem_map_of_mem (fun n => n.id) hx)
          rw [hrest]
          simp only [List.find?, hb]
          subst hid
          rw [hmemHead, hout]
          simp [isOkU]
        · have hb : (n.id == id0) = false := by simp [hid]
          simp only [List.find?, hb]
      · rw [hloop]
        exact ihb
      · rw [hloop, ihc]
        simp [flushEvs, hout, isOkU, List.append_assoc]

theorem attemptsOf_flushEvs (outcome : String -> Bool) :
    ∀ pend : List NotificationRow,
      attemptsOf (flushEvs outcome pend) = pend.map (fun n => n.message)
  | [] => rfl
  | n :: rest => by
    have ih := attemptsOf_flushEvs outcome rest
    unfold attemptsOf at ih ⊢
    unfold flushEvs
    rw [List.filterMap_append, ih]
    cases h : outcome n.message <;> simp [h]

theorem pendingIds_nodup (st : DBState)
    (hN : (st.notifs.map (fun n => n.id)).Nodup) :
    (((st.notifs.filter (fun m => !m.isSent)).map (fun n => n.id))).Nodup :=
  hN.sublist (List.Sublist.map (fun n => n.id) (List.filter_sublist st.notifs))

theorem pend_find?_of_pending (st : DBState)
    (hN : (st.notifs.map (fun n => n.id)).Nodup)
    (n : NotificationRow) (hn : n ∈ st.notifs) (hs : n.isSent = false) :
    (st.notifs.filter (fun m => !m.isSent)).find? (fun p => p.id == n.id) = some n := by
  have hmem : n ∈ st.notifs.filter (fun m => !m.isSent) :=
    List.mem_filter.mpr ⟨hn, by simp [hs]⟩
  exact find?_eq_of_mem_nodup _ (pendingIds_nodup st hN) n hmem

theorem pend_find?_of_sent (st : DBState)
    (hN : (st.notifs.map (fun n => n.id)).Nodup)
    (n : NotificationRow) (hn : n ∈ st.notifs) (hs : n.isSent = true) :
    (st.notifs.filter (fun m => !m.isSent)).find? (fun p => p.id == n.id) = none := by
  rw [List.find?_eq_none]
  intro x hx
  have hx' := List.mem_filter.mp hx
  intro hc
  rw [beq_iff_eq] at hc
  have h1 : st.notifs.find? (fun m => m.id == x.id) = some x :=
    find?_eq_of_mem_nodup _ hN x hx'.1
  have h2 : st.notifs.find? (fun m => m.id == n.id) = some n :=
    find?_eq_of_mem_nodup _ hN n hn
  rw [hc] at h1
  rw [h1] at h2
  have hxn : x = n := by simpa using h2
  rw [hxn] at hx'
  simp [hs] at hx'

/-! ## C6 -/

/-- C6: with `telegram_enabled = 'true'` and the bot constructible, the
flush attempts every `isSent = false` row once, in creation order; each
pending row ends sent exactly when its own delivery succeeded, a failed
row stays pending, and already-sent rows are untouched — a single
failure never aborts the scan. -/
theorem sendPending_per_message (cfg : CryptoConfig) (transport : Transport)
    (bot : List Byte) (chat : String) (st : DBState)
    (hEn : getSetting st "telegram_enabled" = some "true")
    (hchat : getSetting st "telegram_chat_id" = some chat)
    (hne : chat.isEmpty = false)
    (hNodup : (st.notifs.map (fun n => n.id)).Nodup) :
    attemptsOf (sendDailyNotifications cfg transport (some bot) st).2.2 =
      (st.notifs.filter (fun n => !n.isSent)).map (fun n => n.message) ∧
    ∀ n ∈ st.notifs,
      findNotif (sendDailyNotifications cfg transport (some bot) st).1 n.id =
        some (if n.isSent then n
              else if isOkU (transport bot chat n.message) then markSent st.now n else n) := by
  have hEnB : (getSetting st "telegram_enabled" != some "true") = false := by
    rw [hEn]
    simp
  have hloop : sendDailyNotifications cfg transport (some bot) st =
      sendPendingLoop cfg transport (st.notifs.filter (fun n => !n.isSent)) st (some bot) [] := by
    unfold sendDailyNotifications
    rw [hEnB]
    simp
  obtain ⟨ha, _, hc⟩ := sendPendingLoop_spec cfg transport bot chat hne
    (st.notifs.filter (fun n => !n.isSent)) st []
    hchat (pendingIds_nodup st hNodup)
    (fun p hp => find?_eq_of_mem_nodup _ hNodup p (List.mem_filter.mp hp).1)
  constructor
  · rw [hloop, hc]
    simp only [List.nil_append]
    exact attemptsOf_flushEvs _ _
  · intro n hn
    rw [hloop, ha n.id]
    cases hs : n.isSent with
    | true =>
      rw [pend_find?_of_sent st hNodup n hn hs]
      simp only [if_true]
      exact find?_eq_of_mem_nodup _ hNodup n hn
    | false =>
      rw [pend_find?_of_pending st hNodup n hn hs]
      simp only [Bool.false_eq_true, if_false]

/-- Witness for C6: over three pending notifications whose second fails
delivery, all three are attempted in order, rows 1 and 3 end sent,
row 2 stays pending. -/
theorem sendPending_per_message_witness :
    (getSetting stPending "telegram_enabled" = some "true" ∧
      getSetting stPending "telegram_chat_id" = some "42" ∧
      (("42" : String).isEmpty = false) ∧
      ((stPending.notifs.map (fun n => n.id)).Nodup)) ∧
    (attemptsOf (sendDailyNotifications testConfig transportFail2 (some botTok) stPending).2.2 =
        (stPending.notifs.filter (fun n => !n.isSent)).map (fun n => n.message) ∧
      ∀ n ∈ stPending.notifs,
        findNotif (sendDailyNotifications testConfig transportFail2 (some botTok) stPending).1 n.id =
          some (if n.isSent then n
                else if isOkU (transportFail2 botTok "42" n.message) then markSent stPending.now n
                else n)) :=
  ⟨⟨rfl, rfl, by decide, by decide⟩,
   sendPending_per_message testConfig transportFail2 botTok "42" stPending
     rfl rfl (by decide) (by decide)⟩

example :
    (sendDailyNotifications testConfig transportFail2 (some botTok) stPending).1.notifs =
      [markSent 5 notif1, notif2, markSent 5 notif3] := by decide

/-- Counterexample for C8: creation with immediate send inserts the row
already marked `is_sent = 1` and then — after the successful delivery —
updates that row's `sent_at`: an update to a row whose `is_sent` is
already set, performed by an operation other than deletion. -/
theorem sent_row_mutated_by_createNotification :
    (createNotification testConfig transportOkAll (some botTok) stChatOnly (some "hi") "general" true).2.2.2 =
      [Ev.insertNotif 1 true, Ev.attemptSend "hi", Ev.updateNotifRow 1 none true] ∧
    violatesSentImmutability stChatOnly.notifs
      ((createNotification testConfig transportOkAll (some botTok) stChatOnly
          (some "hi") "general" true).2.2.2) = true := by
  decide

/-- C8 (amended): outside creation-with-immediate-send, sent rows are
indeed immutable: the explicit send rejects an already-sent row with a
400 and changes nothing, and the scheduled flush leaves every row that
was already sent untouched.  (Creation with `send_now` is the exception
exhibited by the counterexample: it pre-marks the row sent and then
stamps `sent_at` on success or resets `is_sent` on failure.) -/
theorem sent_rows_immutable_outside_creation (cfg : CryptoConfig) (transport : Transport)
    (cache : Option (List Byte)) (bot : List Byte) (chat : String) (st : DBState) (id0 : Nat)
    (hchat : getSetting st "telegram_chat_id" = some chat)
    (hne : chat.isEmpty = false)
    (hNodup : (st.notifs.map (fun n => n.id)).Nodup) :
    (∀ n, findNotif st id0 = some n -> n.isSent = true ->
        sendNotification cfg transport cache st id0 = (.alreadySent, st, cache, [])) ∧
    (∀ n ∈ st.notifs, n.isSent = true ->
        findNotif (sendDailyNotifications cfg transport (some bot) st).1 n.id = some n) := by
  constructor
  · intro n hn hsent
    unfold sendNotification
    rw [hn]
    simp [hsent]
  · intro n hn hsent
    by_cases hEn : getSetting st "telegram_enabled" = some "true"
    · have hEnB : (getSetting st "telegram_enabled" != some "true") = false := by
        rw [hEn]
        simp
      have hloop : sendDailyNotifications cfg transport (some bot) st =
          sendPendingLoop cfg transport (st.notifs.filter (fun n => !n.isSent)) st (some bot) [] := by
        unfold sendDailyNotifications
        rw [hEnB]
        simp
      obtain ⟨ha, _, _⟩ := sendPendingLoop_spec cfg transport bot chat hne
        (st.notifs.filter (fun n => !n.isSent)) st []
        hchat (pendingIds_nodup st hNodup)
        (fun p hp => find?_eq_of_mem_nodup _ hNodup p (List.mem_filter.mp hp).1)
      rw [hloop, ha n.id, pend_find?_of_sent st hNodup n hn hsent]
      exact find?_eq_of_mem_nodup _ hNodup n hn
    · have hEnB : (getSetting st "telegram_enabled" != some "true") = true := by
        simp [hEn]
      have hid : sendDailyNotifications cfg transport (some bot) st = (st, some bot, []) := by
        unfold sendDailyNotifications
        rw [hEnB]
        simp
      rw [hid]
      exact find?_eq_of_mem_nodup _ hNodup n hn

/-- Witness for C8 (amended): the explicit send of the already-sent row
9 is rejected without any change, and a flush leaves the row as it is. -/
theorem sent_rows_immutable_outside_creation_witness :
    (getSetting stSentOne "telegram_chat_id" = some "42" ∧
      (("42" : String).isEmpty = false) ∧
      (stSentOne.notifs.map (fun n => n.id)).Nodup) ∧
    (∀ n, findNotif stSentOne 9 = some n -> n.isSent = true ->
        sendNotification testConfig transportOkAll (some botTok) stSentOne 9 =
          (.alreadySent, stSentOne, some botTok, [])) ∧
    (∀ n ∈ stSentOne.notifs, n.isSent = true ->
        findNotif (sendDailyNotifications testConfig transportOkAll (some botTok) stSentOne).1 n.id =
          some n) :=
  ⟨⟨rfl, by decide, by decide⟩,
   sent_rows_immutable_outside_creation testConfig transportOkAll (some botTok) botTok "42"
     stSentOne 9 rfl (by decide) (by decide)⟩

end StockSys
